import Mathlib

/-!
Shallow embedding of `l2cs.py`: a translator from Lucene-style queries
(parsed by the external whoosh library into a compiled query tree) into a
parenthesized target grammar.  We embed the clause-dispatch serializer
(`HANDLERS`, `handler`, `build_field`, `build_grouper`, `build_compound`,
`walk_clause`), the coercion plugins (`IntNodePlugin.modify_node`,
`YesNoPlugin.modify_node`, `IntNode`), and the self-test runner
(`TESTS`, `run_tests`).
-/

namespace L2cs

/-- A Python runtime class, as used for handler dispatch: its name
(`cls.__name__`) and the name of its base class, when one matters. -/
structure PyClass where
  name : String
  base : Option String
deriving DecidableEq, Repr

/-- The Python exceptions the embedded code can raise. -/
inductive PyError where
  | keyError (cls : String)
  | attributeError (attr : String)
  | indexError
  | valueError
  | assertionError
deriving DecidableEq, Repr

/-- `whoosh.query.Term`. -/
def TermClass : PyClass := ⟨"Term", some "Query"⟩
/-- `whoosh.query.Phrase`. -/
def PhraseClass : PyClass := ⟨"Phrase", some "Query"⟩
/-- `whoosh.query.And`. -/
def AndClass : PyClass := ⟨"And", some "CompoundQuery"⟩
/-- `whoosh.query.Or`. -/
def OrClass : PyClass := ⟨"Or", some "CompoundQuery"⟩
/-- `whoosh.query.Not`. -/
def NotClass : PyClass := ⟨"Not", some "Query"⟩
/-- `whoosh.query.AndNot`. -/
def AndNotClass : PyClass := ⟨"AndNot", some "CompoundQuery"⟩

/-- A compiled whoosh query tree node.  Each node carries its runtime class
(dispatch in `walk_clause` is by exact class).  `term`/`phrase` mirror
`whoosh.query.Term`/`Phrase` (fieldname, text or word list, and the
`integer_field` attribute read by `getattr(clause, "integer_field", False)`);
`boolGroup` mirrors `And`/`Or`/`Not` (whose `children()` yields the
subqueries in order); `andnot` mirrors the binary `AndNot` (whose
`children()` yields `[use, avoid]`). -/
inductive Clause where
  | term (cls : PyClass) (fieldname text : String) (integer_field : Bool)
  | phrase (cls : PyClass) (fieldname : String) (words : List String) (integer_field : Bool)
  | boolGroup (cls : PyClass) (children : List Clause)
  | andnot (cls : PyClass) (use avoid : Clause)
deriving Repr

/-- `clause.__class__`. -/
def Clause.cls : Clause → PyClass
  | .term c .. => c
  | .phrase c .. => c
  | .boolGroup c _ => c
  | .andnot c _ _ => c

/-- The three renderer functions registered in `HANDLERS`. -/
inductive HandlerTag where
  | field     -- build_field
  | grouper   -- build_grouper
  | compound  -- build_compound
deriving DecidableEq, Repr

/-- The `handler(classes)` decorator's registration loop: for each class,
raise `ValueError` when the class already has a handler, otherwise add the
binding.  The table is threaded explicitly (in the source it is the global
`HANDLERS` dict). -/
def handler (HANDLERS : List (PyClass × HandlerTag)) (classes : List PyClass)
    (fn : HandlerTag) : Except PyError (List (PyClass × HandlerTag)) :=
  match classes with
  | [] => .ok HANDLERS
  | cls :: rest =>
      if (HANDLERS.lookup cls).isSome then .error .valueError
      else handler (HANDLERS ++ [(cls, fn)]) rest fn

/-- The module-load registration sequence: the three `@handler(...)`
decorators in source order. -/
def HANDLERS : Except PyError (List (PyClass × HandlerTag)) := do
  let t1 ← handler [] [TermClass, PhraseClass] .field
  let t2 ← handler t1 [AndClass, OrClass, NotClass] .grouper
  handler t2 [AndNotClass] .compound

/-- The handler table as it stands after module load. -/
def handlersTable : List (PyClass × HandlerTag) :=
  [(TermClass, .field), (PhraseClass, .field), (AndClass, .grouper),
   (OrClass, .grouper), (NotClass, .grouper), (AndNotClass, .compound)]

/-- Python's `str.lower()` restricted to ASCII, which is all that class
names contain: uppercase ASCII letters are shifted to lowercase, every
other character is unchanged. -/
def pyLowerChar (c : Char) : Char :=
  if 'A' ≤ c ∧ c ≤ 'Z' then Char.ofNat (c.toNat + 32) else c

/-- `s.lower()` on an ASCII string. -/
def pyLower (s : String) : String := ⟨s.data.map pyLowerChar⟩

/-- The `for word in clause.words[:-1]: yield word; yield " "` loop of
`build_field`: each word followed by a single space. -/
def yieldWords : List String → String
  | [] => ""
  | w :: rest => w ++ " " ++ yieldWords rest

/-- `build_field`: renders a `Term` or `Phrase` leaf.  When
`integer_field` is false it emits `(field <name> '<value>')`, the phrase
value being `words[:-1]` each followed by a space, then `words[-1]`
(an `IndexError` when the word list is empty).  When `integer_field` is
true it emits `<name>:<text>`; a `Phrase` has no `text` attribute, so that
branch raises `AttributeError` on a phrase.  A node with no `fieldname`
attribute (any non-leaf) raises `AttributeError`. -/
def build_field : Clause → Except PyError String
  | .term _ f t ig =>
      if ig then .ok (f ++ ":" ++ t)
      else .ok ("(field " ++ f ++ " '" ++ t ++ "')")
  | .phrase _ f ws ig =>
      if ig then .error (.attributeError "text")
      else
        match ws.getLast? with
        | none => .error .indexError
        | some last =>
            .ok ("(field " ++ f ++ " '" ++ yieldWords ws.dropLast ++ last ++ "')")
  | _ => .error (.attributeError "fieldname")

mutual

/-- `walk_clause`: looks the clause's exact runtime class up in the handler
table (`HANDLERS[clause.__class__]`, a `KeyError` when absent) and runs the
registered renderer.  `build_grouper` emits `(<classname lowercased>` then
each child of `clause.children()` preceded by a space, then `)`;
`build_compound` unpacks `list(clause.children())` into exactly two
children (`ValueError` otherwise) and emits
`(and <use> (not <avoid>))`. -/
def walk_clause (c : Clause) : Except PyError String :=
  match c with
  | .term cls f t ig =>
      match handlersTable.lookup cls with
      | none => .error (.keyError cls.name)
      | some .field => build_field (.term cls f t ig)
      | some .grouper => .ok ("(" ++ pyLower cls.name ++ ")")
      | some .compound => .error .valueError
  | .phrase cls f ws ig =>
      match handlersTable.lookup cls with
      | none => .error (.keyError cls.name)
      | some .field => build_field (.phrase cls f ws ig)
      | some .grouper => .ok ("(" ++ pyLower cls.name ++ ")")
      | some .compound => .error .valueError
  | .boolGroup cls cs =>
      match handlersTable.lookup cls with
      | none => .error (.keyError cls.name)
      | some .field => build_field (.boolGroup cls cs)
      | some .grouper => do
          let body ← renderChildren cs
          .ok ("(" ++ pyLower cls.name ++ body ++ ")")
      | some .compound => compoundOfChildren cs
  | .andnot cls u a =>
      match handlersTable.lookup cls with
      | none => .error (.keyError cls.name)
      | some .field => build_field (.andnot cls u a)
      | some .grouper => do
          let su ← walk_clause u
          let sa ← walk_clause a
          .ok ("(" ++ pyLower cls.name ++ " " ++ su ++ " " ++ sa ++ ")")
      | some .compound => do
          let su ← walk_clause u
          let sa ← walk_clause a
          .ok ("(and " ++ su ++ " (not " ++ sa ++ "))")

/-- The `use, avoid = list(clause.children())` unpacking of
`build_compound` for a clause whose children come as a list: exactly two
children render as `(and <use> (not <avoid>))`, any other number raises
`ValueError`. -/
def compoundOfChildren : List Clause → Except PyError String
  | [u, a] => do
      let su ← walk_clause u
      let sa ← walk_clause a
      .ok ("(and " ++ su ++ " (not " ++ sa ++ "))")
  | _ => .error .valueError

/-- The `for child_clause in clause.children()` loop of `build_grouper`:
a space, then the child's rendering, for each child in order. -/
def renderChildren (cs : List Clause) : Except PyError String :=
  match cs with
  | [] => .ok ""
  | c :: rest => do
      let s ← walk_clause c
      let r ← renderChildren rest
      .ok (" " ++ s ++ r)

end

/-- Sanity check: the module-load registration sequence succeeds and
produces exactly `handlersTable`. -/
theorem HANDLERS_eq : HANDLERS = .ok handlersTable := rfl

/-- Dispatch on a `Term` runs `build_field`. -/
theorem walk_clause_term (f t : String) (ig : Bool) :
    walk_clause (.term TermClass f t ig) = build_field (.term TermClass f t ig) := rfl

/-- Dispatch on a `Phrase` runs `build_field`. -/
theorem walk_clause_phrase (f : String) (ws : List String) (ig : Bool) :
    walk_clause (.phrase PhraseClass f ws ig) = build_field (.phrase PhraseClass f ws ig) := rfl

/-- Dispatch on an `And` group runs `build_grouper`. -/
theorem walk_clause_and (cs : List Clause) :
    walk_clause (.boolGroup AndClass cs) =
      (renderChildren cs).bind (fun body => .ok ("(and" ++ body ++ ")")) := rfl

/-- Dispatch on an `Or` group runs `build_grouper`. -/
theorem walk_clause_or (cs : List Clause) :
    walk_clause (.boolGroup OrClass cs) =
      (renderChildren cs).bind (fun body => .ok ("(or" ++ body ++ ")")) := rfl

/-- Dispatch on a `Not` group runs `build_grouper`. -/
theorem walk_clause_not (cs : List Clause) :
    walk_clause (.boolGroup NotClass cs) =
      (renderChildren cs).bind (fun body => .ok ("(not" ++ body ++ ")")) := rfl

/-- Dispatch on an `AndNot` runs `build_compound`. -/
theorem walk_clause_andnot (u a : Clause) :
    walk_clause (.andnot AndNotClass u a) =
      (walk_clause u).bind (fun su => (walk_clause a).bind (fun sa =>
        .ok ("(and " ++ su ++ " (not " ++ sa ++ "))"))) := rfl

theorem renderChildren_nil : renderChildren [] = .ok "" := rfl

theorem renderChildren_cons (c : Clause) (rest : List Clause) :
    renderChildren (c :: rest) = (walk_clause c).bind (fun s =>
      (renderChildren rest).bind (fun r => .ok (" " ++ s ++ r))) := rfl

/-- C1: for every compiled AND-NOT node with children `keep` and `exclude`,
rendering produces exactly the same string as rendering the group
`And(keep, Not(exclude))`: `build_compound` decomposes the binary AND-NOT
operator into the nested form `(and <rendered-keep> (not <rendered-exclude>))`. -/
theorem C1_andnot_decomposition (keep exclude : Clause) :
    walk_clause (.andnot AndNotClass keep exclude) =
      walk_clause (.boolGroup AndClass [keep, .boolGroup NotClass [exclude]]) := by
  rw [walk_clause_andnot, walk_clause_and, renderChildren_cons, renderChildren_cons,
      renderChildren_nil, walk_clause_not, renderChildren_cons, renderChildren_nil]
  cases walk_clause keep with
  | error e => rfl
  | ok su =>
      cases walk_clause exclude with
      | error e => rfl
      | ok sa =>
          show Except.ok _ = Except.ok _
          congr 1
          apply String.ext
          simp [String.data_append, List.append_assoc]

/-- Written from the spec's words, for comparison with the source loop:
a list of words "joined by a single space". -/
def spaceJoined : List String → String
  | [] => ""
  | [w] => w
  | w :: rest => w ++ " " ++ spaceJoined rest

theorem yieldWords_dropLast (ws : List String) (last : String)
    (h : ws.getLast? = some last) :
    yieldWords ws.dropLast ++ last = spaceJoined ws := by
  induction ws with
  | nil => simp at h
  | cons w rest ih =>
      cases rest with
      | nil =>
          simp at h
          subst h
          simp [yieldWords, spaceJoined, String.empty_append]
      | cons w2 rest2 =>
          have h' : (w2 :: rest2).getLast? = some last := by simpa using h
          have ih' := ih h'
          rw [show (w :: w2 :: rest2).dropLast = w :: (w2 :: rest2).dropLast by simp,
              show spaceJoined (w :: w2 :: rest2) = w ++ " " ++ spaceJoined (w2 :: rest2)
                from rfl,
              ← ih', yieldWords, String.append_assoc, String.append_assoc]

theorem build_field_phrase_untyped (f : String) (ws : List String) (h : ws ≠ []) :
    build_field (.phrase PhraseClass f ws false) =
      .ok ("(field " ++ f ++ " '" ++ spaceJoined ws ++ "')") := by
  have hsome : ws.getLast?.isSome := by
    cases ws with
    | nil => exact absurd rfl h
    | cons a l => rw [List.getLast?_isSome]; exact h
  obtain ⟨last, hl⟩ := Option.isSome_iff_exists.mp hsome
  simp only [build_field, Bool.false_eq_true, if_false, hl]
  rw [String.append_assoc (("(field " ++ f) ++ " '") (yieldWords ws.dropLast) last,
      yieldWords_dropLast ws last hl]

/-- C2 counterexample: a `Phrase` leaf with `integer_field` set raises an
`AttributeError` (a `Phrase` has no `text` attribute), rather than emitting
`<fieldname>:<value>` as the claim states for every typed leaf. -/
theorem C2_counterexample :
    walk_clause (.phrase PhraseClass "count" ["foo", "bar"] true) =
      .error (.attributeError "text") := rfl

/-- C2 (amended): for every leaf node, when `integer_field` is false
rendering emits `(field <fieldname> '<value>')` — `<value>` being the
single word for a `Term`, or the words joined by single spaces for a
`Phrase` with at least one word, with no escaping; when `integer_field`
is true a `Term` renders as `<fieldname>:<text>` with no surrounding
punctuation, while a `Phrase` raises an `AttributeError`. -/
theorem C2_leaf_rendering (f t : String) (ws : List String) (h : ws ≠ []) :
    walk_clause (.term TermClass f t false) = .ok ("(field " ++ f ++ " '" ++ t ++ "')") ∧
    walk_clause (.term TermClass f t true) = .ok (f ++ ":" ++ t) ∧
    walk_clause (.phrase PhraseClass f ws false) =
      .ok ("(field " ++ f ++ " '" ++ spaceJoined ws ++ "')") ∧
    walk_clause (.phrase PhraseClass f ws true) = .error (.attributeError "text") := by
  refine ⟨rfl, rfl, ?_, rfl⟩
  rw [walk_clause_phrase, build_field_phrase_untyped f ws h]

/-- C2 witness: the amended claim at a concrete field, term and phrase. -/
theorem C2_leaf_rendering_witness :
    walk_clause (.term TermClass "text" "foo" false) =
      .ok ("(field " ++ "text" ++ " '" ++ "foo" ++ "')") ∧
    walk_clause (.term TermClass "text" "foo" true) = .ok ("text" ++ ":" ++ "foo") ∧
    walk_clause (.phrase PhraseClass "text" ["a", "b"] false) =
      .ok ("(field " ++ "text" ++ " '" ++ spaceJoined ["a", "b"] ++ "')") ∧
    walk_clause (.phrase PhraseClass "text" ["a", "b"] true) =
      .error (.attributeError "text") :=
  C2_leaf_rendering "text" "foo" ["a", "b"] (by decide)

/-- The body a boolean group wraps: each rendered child preceded by a
single space, in order. -/
def spacedPieces : List String → String
  | [] => ""
  | s :: rest => " " ++ s ++ spacedPieces rest

theorem renderChildren_eq_mapM (cs : List Clause) :
    renderChildren cs = (cs.mapM walk_clause).map spacedPieces := by
  induction cs with
  | nil => rfl
  | cons c rest ih =>
      rw [renderChildren_cons, List.mapM_cons, ih]
      cases walk_clause c with
      | error e => rfl
      | ok s =>
          cases rest.mapM walk_clause with
          | error e => rfl
          | ok rs => rfl

/-- C3: a boolean group node of kind AND, OR or NOT renders as an open
parenthesis, the kind name lowercased, then each child's rendering
preceded by a single space in the original child order (no reordering),
then a close parenthesis; the recursion is depth-first (each child is
rendered in full, left to right). -/
theorem C3_bool_group_rendering (cs : List Clause) :
    walk_clause (.boolGroup AndClass cs) =
      (cs.mapM walk_clause).map (fun rs => "(and" ++ spacedPieces rs ++ ")") ∧
    walk_clause (.boolGroup OrClass cs) =
      (cs.mapM walk_clause).map (fun rs => "(or" ++ spacedPieces rs ++ ")") ∧
    walk_clause (.boolGroup NotClass cs) =
      (cs.mapM walk_clause).map (fun rs => "(not" ++ spacedPieces rs ++ ")") := by
  refine ⟨?_, ?_, ?_⟩
  · rw [walk_clause_and, renderChildren_eq_mapM]
    cases cs.mapM walk_clause <;> rfl
  · rw [walk_clause_or, renderChildren_eq_mapM]
    cases cs.mapM walk_clause <;> rfl
  · rw [walk_clause_not, renderChildren_eq_mapM]
    cases cs.mapM walk_clause <;> rfl

/-! ## The coercion plugins -/

/-- Python's notion of whitespace for `str.strip()`. -/
def pyIsSpace (c : Char) : Bool :=
  c = ' ' ∨ c = '\t' ∨ c = '\n' ∨ c = '\x0b' ∨ c = '\x0c' ∨ c = '\r'

/-- `s.strip()` as a character list. -/
def pyStrip (s : String) : List Char :=
  (((s.data.dropWhile pyIsSpace).reverse).dropWhile pyIsSpace).reverse

/-- The numeric value of a nonempty all-ASCII-digit character list. -/
def digitsVal (ds : List Char) : Option Nat :=
  if ds ≠ [] ∧ ds.all Char.isDigit
  then some (ds.foldl (fun n c => 10 * n + (c.toNat - 48)) 0)
  else none

/-- Python 2 `int()` applied to a string: optional surrounding whitespace,
an optional sign, then one or more base-10 digits; `none` models the
`ValueError` raised on any other text. -/
def pyInt (s : String) : Option Int :=
  match pyStrip s with
  | '+' :: ds => (digitsVal ds).map (fun n => (n : Int))
  | '-' :: ds => (digitsVal ds).map (fun n => -(n : Int))
  | ds => (digitsVal ds).map (fun n => (n : Int))

/-- A whoosh parser syntax node as the coercion plugins see it: the
`has_text` flag, the `text` attribute, the `fieldname` set by
`set_fieldname`, and whether the node is an `IntNode` (whose `query()`
sets `integer_field = True` on the term it produces). -/
structure SynNode where
  has_text : Bool
  text : String
  fieldname : Option String
  isIntNode : Bool
deriving DecidableEq, Repr

/-- `IntNode.__init__` on an `int` argument (`int(v)` is the identity):
the node's text is `str(v)`, the canonical decimal form. -/
def IntNode.initInt (v : Int) : SynNode := ⟨true, toString v, none, true⟩

/-- `IntNode.__init__` on a string argument: `int(value)` raises
`ValueError` on non-numeric text, otherwise the node's text becomes the
canonical decimal form `str(int(value))`. -/
def IntNode.init (value : String) : Except PyError SynNode :=
  match pyInt value with
  | some v => .ok (IntNode.initInt v)
  | none => .error .valueError

/-- `IntNodePlugin.modify_node`: on a node with text, try to build an
`IntNode` from the text and give it the field name; the `except
ValueError` clause converts the failure to `None` (the drop outcome).
Nodes without text pass through unchanged. -/
def IntNodePlugin.modify_node (fieldname : String) (node : SynNode) :
    Except PyError (Option SynNode) :=
  if node.has_text then
    match IntNode.init node.text with
    | .ok n => .ok (some { n with fieldname := some fieldname })
    | .error .valueError => .ok none
    | .error e => .error e
  else .ok (some node)

/-- `YesNoPlugin.modify_node`: on a node with text, build `IntNode(1)`
when the text is exactly `"yes"`, `"y"` or `"1"`, otherwise `IntNode(0)`,
and give it the field name.  Nodes without text pass through unchanged. -/
def YesNoPlugin.modify_node (fieldname : String) (node : SynNode) :
    Except PyError (Option SynNode) :=
  if node.has_text then
    let n := if node.text = "yes" ∨ node.text = "y" ∨ node.text = "1"
             then IntNode.initInt 1 else IntNode.initInt 0
    .ok (some { n with fieldname := some fieldname })
  else .ok (some node)

/-- `WordNode.query` / `IntNode.query`: the compiled `Term` built from a
word node — its field name (or the parser's default field, `text`), its
text, and `integer_field` set exactly when the node is an `IntNode`. -/
def SynNode.query (n : SynNode) : Clause :=
  .term TermClass (n.fieldname.getD "text") n.text n.isIntNode

/-- C4: under an integer field, a word node whose text parses as a base-10
integer is replaced by a typed leaf carrying the field name, the canonical
decimal string and the `IntNode` tag (hence `integer_field = true` on the
compiled term); a word node whose text does not parse is dropped
(`None`), and no exception escapes the rule boundary. -/
theorem C4_int_coercion (f : String) (node : SynNode) (h : node.has_text = true) :
    (∀ v : Int, pyInt node.text = some v →
        IntNodePlugin.modify_node f node = .ok (some ⟨true, toString v, some f, true⟩) ∧
        SynNode.query ⟨true, toString v, some f, true⟩ = .term TermClass f (toString v) true) ∧
    (pyInt node.text = none → IntNodePlugin.modify_node f node = .ok none) ∧
    (∀ e : PyError, IntNodePlugin.modify_node f node ≠ .error e) := by
  refine ⟨?_, ?_, ?_⟩
  · intro v hv
    exact ⟨by simp [IntNodePlugin.modify_node, h, IntNode.init, IntNode.initInt, hv], rfl⟩
  · intro hv
    simp [IntNodePlugin.modify_node, h, IntNode.init, hv]
  · intro e
    cases hv : pyInt node.text <;>
      simp [IntNodePlugin.modify_node, h, IntNode.init, IntNode.initInt, hv]

/-- C4 witness: `count:007` coerces to the canonical `7`; `count:abc`
is dropped. -/
theorem C4_int_coercion_witness :
    IntNodePlugin.modify_node "count" ⟨true, "007", none, false⟩ =
      .ok (some ⟨true, toString (7 : Int), some "count", true⟩) ∧
    IntNodePlugin.modify_node "count" ⟨true, "abc", none, false⟩ = .ok none :=
  ⟨((C4_int_coercion "count" ⟨true, "007", none, false⟩ rfl).1 7 (by decide)).1,
   (C4_int_coercion "count" ⟨true, "abc", none, false⟩ rfl).2.1 (by decide)⟩

/-- C5: under a yes/no field the rule is total: text exactly `"yes"`,
`"y"` or `"1"` (case-sensitively) yields a typed leaf of value 1 and any
other text one of value 0; the node is never dropped and never an error,
and the leaf always renders as `field:1` or `field:0`, never any other
literal. -/
theorem C5_yesno_total (f : String) (node : SynNode) (h : node.has_text = true) :
    ∃ n' : SynNode, YesNoPlugin.modify_node f node = .ok (some n') ∧
      walk_clause n'.query =
        .ok (f ++ ":" ++ (if node.text = "yes" ∨ node.text = "y" ∨ node.text = "1"
                          then "1" else "0")) := by
  by_cases hc : node.text = "yes" ∨ node.text = "y" ∨ node.text = "1"
  · refine ⟨⟨true, toString (1 : Int), some f, true⟩, ?_, ?_⟩
    · simp [YesNoPlugin.modify_node, h, hc, IntNode.initInt]
    · rw [if_pos hc]
      rfl
  · refine ⟨⟨true, toString (0 : Int), some f, true⟩, ?_, ?_⟩
    · simp [YesNoPlugin.modify_node, h, hc, IntNode.initInt]
    · rw [if_neg hc]
      rfl

/-- C5 witness: a yes/no field on text outside the yes-set renders as
`field:0`. -/
theorem C5_yesno_total_witness :
    ∃ n' : SynNode,
      YesNoPlugin.modify_node "is_active" ⟨true, "maybe", none, false⟩ = .ok (some n') ∧
      walk_clause n'.query =
        .ok ("is_active" ++ ":" ++
             (if "maybe" = "yes" ∨ "maybe" = "y" ∨ "maybe" = "1" then "1" else "0")) :=
  C5_yesno_total "is_active" ⟨true, "maybe", none, false⟩ rfl

/-! ## Dispatch failure -/

theorem walk_clause_lookup_none (c : Clause) (h : handlersTable.lookup c.cls = none) :
    walk_clause c = .error (.keyError c.cls.name) := by
  cases c <;>
    (simp only [Clause.cls] at h ⊢
     simp only [walk_clause]
     rw [h])

/-- C6: a tree node whose kind (runtime class) has no registered renderer
makes `walk_clause` raise the lookup `KeyError`: there is no default or
fallback rendering, and the call produces an error instead of any
output. -/
theorem C6_unsupported_clause (c : Clause)
    (h : handlersTable.lookup c.cls = none) :
    walk_clause c = .error (.keyError c.cls.name) :=
  walk_clause_lookup_none c h

/-- C6 witness: `whoosh.query.Prefix` — produced by the enabled
`PrefixPlugin` but never registered — has no renderer. -/
theorem C6_unsupported_clause_witness :
    walk_clause (.term ⟨"Prefix", some "PatternQuery"⟩ "text" "foo" false) =
      .error (.keyError "Prefix") :=
  C6_unsupported_clause (.term ⟨"Prefix", some "PatternQuery"⟩ "text" "foo" false) (by decide)

/-- C10: renderer dispatch keys on the exact runtime class: a node whose
class is a strict subclass of a registered kind, but is not itself
registered, raises the unsupported-clause `KeyError` rather than falling
back to the parent kind's renderer. -/
theorem C10_exact_class_dispatch (c : Clause) (parent : PyClass)
    (_hsub : c.cls.base = some parent.name)
    (_hparent : (handlersTable.lookup parent).isSome)
    (hself : handlersTable.lookup c.cls = none) :
    walk_clause c = .error (.keyError c.cls.name) :=
  walk_clause_lookup_none c hself

/-- C10 witness: a strict subclass of the registered `Term` class is not
dispatched to `build_field` but errors. -/
theorem C10_exact_class_dispatch_witness :
    walk_clause (.term ⟨"MyTerm", some "Term"⟩ "text" "foo" false) =
      .error (.keyError "MyTerm") :=
  C10_exact_class_dispatch (.term ⟨"MyTerm", some "Term"⟩ "text" "foo" false)
    TermClass (by decide) (by decide) (by decide)

/-! ## Registration-time duplicate detection -/

theorem lookup_append_isSome (l1 l2 : List (PyClass × HandlerTag)) (a : PyClass)
    (h : (l1.lookup a).isSome) : ((l1 ++ l2).lookup a).isSome := by
  induction l1 with
  | nil => simp [List.lookup] at h
  | cons p rest ih =>
      obtain ⟨k, v⟩ := p
      cases hk : a == k with
      | true => simp [List.lookup, hk]
      | false =>
          simp only [List.lookup, hk] at h
          simp only [List.cons_append, List.lookup, hk]
          exact ih h

/-- C8: the `handler` decorator raises `ValueError` at registration
(configuration build) time when one of the classes being registered
already has a renderer in the table. -/
theorem C8_duplicate_registration (tbl : List (PyClass × HandlerTag))
    (classes : List PyClass) (fn : HandlerTag) (cls : PyClass)
    (hmem : cls ∈ classes) (hdup : (tbl.lookup cls).isSome) :
    handler tbl classes fn = .error .valueError := by
  induction classes generalizing tbl with
  | nil => cases hmem
  | cons c rest ih =>
      by_cases hc : (tbl.lookup c).isSome
      · unfold handler
        rw [if_pos hc]
      · cases hmem with
        | head => exact absurd hdup hc
        | tail _ hmem' =>
            unfold handler
            rw [if_neg hc]
            exact ih (tbl ++ [(c, fn)]) hmem' (lookup_append_isSome tbl [(c, fn)] cls hdup)

/-- C8 witness: re-registering the already-registered `Term` class fails
with `ValueError`. -/
theorem C8_duplicate_registration_witness :
    handler handlersTable [TermClass] .grouper = .error .valueError :=
  C8_duplicate_registration handlersTable [TermClass] .grouper TermClass
    (by decide) (by decide)

/-! ## Purity of the rendering pass

A state-passing variant of the serializer: the handler table (the
process-wide `HANDLERS` dict in the source) is passed into and returned
from every step of the traversal, so "rendering never writes the
registry" is a provable statement rather than a modelling convention.
Each step performs exactly the reads `walk_clause` performs. -/

mutual

def walkWS (tbl : List (PyClass × HandlerTag)) (c : Clause) :
    Except PyError String × List (PyClass × HandlerTag) :=
  match c with
  | .term cls f t ig =>
      match tbl.lookup cls with
      | none => (.error (.keyError cls.name), tbl)
      | some .field => (build_field (.term cls f t ig), tbl)
      | some .grouper => (.ok ("(" ++ pyLower cls.name ++ ")"), tbl)
      | some .compound => (.error .valueError, tbl)
  | .phrase cls f ws ig =>
      match tbl.lookup cls with
      | none => (.error (.keyError cls.name), tbl)
      | some .field => (build_field (.phrase cls f ws ig), tbl)
      | some .grouper => (.ok ("(" ++ pyLower cls.name ++ ")"), tbl)
      | some .compound => (.error .valueError, tbl)
  | .boolGroup cls cs =>
      match tbl.lookup cls with
      | none => (.error (.keyError cls.name), tbl)
      | some .field => (build_field (.boolGroup cls cs), tbl)
      | some .grouper =>
          match renderChildrenWS tbl cs with
          | (.error e, tbl1) => (.error e, tbl1)
          | (.ok body, tbl1) => (.ok ("(" ++ pyLower cls.name ++ body ++ ")"), tbl1)
      | some .compound => compoundOfChildrenWS tbl cs
  | .andnot cls u a =>
      match tbl.lookup cls with
      | none => (.error (.keyError cls.name), tbl)
      | some .field => (build_field (.andnot cls u a), tbl)
      | some .grouper =>
          match walkWS tbl u with
          | (.error e, tbl1) => (.error e, tbl1)
          | (.ok su, tbl1) =>
              match walkWS tbl1 a with
              | (.error e, tbl2) => (.error e, tbl2)
              | (.ok sa, tbl2) =>
                  (.ok ("(" ++ pyLower cls.name ++ " " ++ su ++ " " ++ sa ++ ")"), tbl2)
      | some .compound =>
          match walkWS tbl u with
          | (.error e, tbl1) => (.error e, tbl1)
          | (.ok su, tbl1) =>
              match walkWS tbl1 a with
              | (.error e, tbl2) => (.error e, tbl2)
              | (.ok sa, tbl2) => (.ok ("(and " ++ su ++ " (not " ++ sa ++ "))"), tbl2)

def renderChildrenWS (tbl : List (PyClass × HandlerTag)) (cs : List Clause) :
    Except PyError String × List (PyClass × HandlerTag) :=
  match cs with
  | [] => (.ok "", tbl)
  | c :: rest =>
      match walkWS tbl c with
      | (.error e, tbl1) => (.error e, tbl1)
      | (.ok s, tbl1) =>
          match renderChildrenWS tbl1 rest with
          | (.error e, tbl2) => (.error e, tbl2)
          | (.ok r, tbl2) => (.ok (" " ++ s ++ r), tbl2)

def compoundOfChildrenWS (tbl : List (PyClass × HandlerTag)) (cs : List Clause) :
    Except PyError String × List (PyClass × HandlerTag) :=
  match cs with
  | [u, a] =>
      match walkWS tbl u with
      | (.error e, tbl1) => (.error e, tbl1)
      | (.ok su, tbl1) =>
          match walkWS tbl1 a with
          | (.error e, tbl2) => (.error e, tbl2)
          | (.ok sa, tbl2) => (.ok ("(and " ++ su ++ " (not " ++ sa ++ "))"), tbl2)
  | _ => (.error .valueError, tbl)

end

mutual

theorem walkWS_run (c : Clause) :
    walkWS handlersTable c = (walk_clause c, handlersTable) := by
  cases c with
  | term cls f t ig =>
      cases hl : handlersTable.lookup cls with
      | none => simp [walkWS, walk_clause, hl]
      | some tag => cases tag <;> simp [walkWS, walk_clause, hl]
  | phrase cls f ws ig =>
      cases hl : handlersTable.lookup cls with
      | none => simp [walkWS, walk_clause, hl]
      | some tag => cases tag <;> simp [walkWS, walk_clause, hl]
  | boolGroup cls cs =>
      cases hl : handlersTable.lookup cls with
      | none => simp [walkWS, walk_clause, hl]
      | some tag =>
          cases tag with
          | field => simp [walkWS, walk_clause, hl]
          | grouper =>
              simp only [walkWS, walk_clause, hl, renderChildrenWS_run cs]
              cases renderChildren cs <;> rfl
          | compound => simp [walkWS, walk_clause, hl, compoundOfChildrenWS_run cs]
  | andnot cls u a =>
      cases hl : handlersTable.lookup cls with
      | none => simp [walkWS, walk_clause, hl]
      | some tag =>
          cases tag with
          | field => simp [walkWS, walk_clause, hl]
          | grouper =>
              simp only [walkWS, walk_clause, hl, walkWS_run u]
              cases walk_clause u with
              | error e => rfl
              | ok su =>
                  simp only [walkWS_run a]
                  cases walk_clause a <;> rfl
          | compound =>
              simp only [walkWS, walk_clause, hl, walkWS_run u]
              cases walk_clause u with
              | error e => rfl
              | ok su =>
                  simp only [walkWS_run a]
                  cases walk_clause a <;> rfl

theorem renderChildrenWS_run (cs : List Clause) :
    renderChildrenWS handlersTable cs = (renderChildren cs, handlersTable) := by
  cases cs with
  | nil => rfl
  | cons c rest =>
      simp only [renderChildrenWS, renderChildren_cons, walkWS_run c]
      cases walk_clause c with
      | error e => rfl
      | ok s =>
          simp only [renderChildrenWS_run rest]
          cases renderChildren rest <;> rfl

theorem compoundOfChildrenWS_run (cs : List Clause) :
    compoundOfChildrenWS handlersTable cs = (compoundOfChildren cs, handlersTable) := by
  match cs with
  | [u, a] =>
      simp only [compoundOfChildrenWS, compoundOfChildren, walkWS_run u]
      cases walk_clause u with
      | error e => rfl
      | ok su =>
          simp only [walkWS_run a]
          cases walk_clause a <;> rfl
  | [] => rfl
  | [_] => rfl
  | _ :: _ :: _ :: _ => rfl

end

/-- C9: rendering is deterministic and pure.  A rendering pass threaded
through the registry state returns the registry unchanged, a second
rendering with the registry the first pass returned produces the
identical output string, and the pass computes exactly `walk_clause` (the
tree itself is immutable data: no operation of the model writes to a
node, as no statement of the source assigns to one). -/
theorem C9_render_deterministic_pure (c : Clause) :
    (walkWS handlersTable c).2 = handlersTable ∧
    (walkWS ((walkWS handlersTable c).2) c).1 = (walkWS handlersTable c).1 ∧
    (walkWS handlersTable c).1 = walk_clause c := by
  simp [walkWS_run c]

/-! ## The self-test runner -/

/-- The `TESTS` table, verbatim: each entry is a tuple of strings.  The
final entry is a 1-tuple — it has no expected output. -/
def TESTS : List (List String) :=
  [["foo", "(field text 'foo')"],
   ["foo:bar", "(field foo 'bar')"],
   ["\"foo bar baz\"", "(field text 'foo bar baz')"],
   ["foo AND bar", "(and (field text 'foo') (field text 'bar'))"],
   ["foo AND bar:baz", "(and (field text 'foo') (field bar 'baz'))"],
   ["foo OR bar", "(or (field text 'foo') (field text 'bar'))"],
   ["bar:baz OR foo", "(or (field bar 'baz') (field text 'foo'))"],
   ["NOT foo", "(not (field text 'foo'))"],
   ["baz NOT bar", "(and (field text 'baz') (not (field text 'bar')))"],
   ["foo:bar NOT foo:baz", "(and (field foo 'bar') (not (field foo 'baz')))"],
   ["bar AND foo:-baz"]]

/-- What `run_tests` prints. -/
inductive TestEvent where
  | header (input expected : String)  -- print input_, 'becomes', output, "? ... "
  | yup                               -- print "\tyup!"
  | nope (actual : String)            -- print "\tnope:", result
deriving DecidableEq, Repr

/-- The `for input_, output in TESTS` loop of `run_tests`, over the
external `convert` function.  Unpacking an entry that is not a pair
raises `ValueError` before anything is printed for that entry; a mismatch
prints the actual output and re-raises the `AssertionError`; a match
prints `yup!` and continues. -/
def run_tests_from (convert : String → String) :
    List (List String) → List TestEvent → List TestEvent × Option PyError
  | [], acc => (acc, none)
  | [input_, expected] :: rest, acc =>
      let acc2 := acc ++ [.header input_ expected]
      let result := convert input_
      if result = expected then run_tests_from convert rest (acc2 ++ [.yup])
      else (acc2 ++ [.nope result], some .assertionError)
  | _ :: _, acc => (acc, some .valueError)

/-- `run_tests`, parameterized by the external `convert` (which runs the
whoosh parser): the events printed, and the exception that terminated the
loop, when one did. -/
def run_tests (convert : String → String) : List TestEvent × Option PyError :=
  run_tests_from convert TESTS []

/-- The ideal converter: returns exactly the expected output recorded in
`TESTS` for every input that has one.  `run_tests` fails even on it. -/
def specConvert (s : String) : String :=
  match (TESTS.filter (fun e => e.head? = some s)).head? with
  | some (_ :: expected :: _) => expected
  | _ => ""

/-- C7: `run_tests` does not print an input/expected pair for every entry
of `TESTS` and cannot complete: even under a converter that returns the
recorded expected output for every tabled input, the run prints the ten
well-formed pairs with their `yup!`s and then halts with the
tuple-unpacking `ValueError` raised by the malformed final 1-tuple entry
`("bar AND foo:-baz", )` — printing nothing at all for that entry and
never reaching an assertion. -/
theorem C7_run_tests_halts_on_malformed_entry :
    run_tests specConvert =
      ([.header "foo" "(field text 'foo')", .yup,
        .header "foo:bar" "(field foo 'bar')", .yup,
        .header "\"foo bar baz\"" "(field text 'foo bar baz')", .yup,
        .header "foo AND bar" "(and (field text 'foo') (field text 'bar'))", .yup,
        .header "foo AND bar:baz" "(and (field text 'foo') (field bar 'baz'))", .yup,
        .header "foo OR bar" "(or (field text 'foo') (field text 'bar'))", .yup,
        .header "bar:baz OR foo" "(or (field bar 'baz') (field text 'foo'))", .yup,
        .header "NOT foo" "(not (field text 'foo'))", .yup,
        .header "baz NOT bar" "(and (field text 'baz') (not (field text 'bar')))", .yup,
        .header "foo:bar NOT foo:baz" "(and (field foo 'bar') (not (field foo 'baz')))", .yup],
       some .valueError) := by
  rfl

end L2cs
